import Mathlib

/-!
Verification of the figCli design-to-code compiler and its resilient
request executor, as a shallow embedding in Lean 4.

The executor model follows `figmaApiRequest` in `src/commands/figma.ts`;
the style deriver, color formatter and component-name sanitizer follow
`getStyleFromNode`, `rgbaToString`, `sanitizeComponentName` and
`generateReactComponent` in the code-generation module.

JavaScript numbers are modelled as rationals (`ℚ`), with `none : Option ℚ`
for `undefined` fields and an `Option` result standing for a possible `NaN`
where one can arise (the result of `parseInt`). Formatted CSS strings are
modelled structurally (`CssColor`, `StyleValue`): the JS template literals
that produce them are injective on these shapes, so string equality in the
source corresponds to equality of the structured values here.
-/

namespace FigCli

/-! ## JavaScript primitives used by the source -/

/-- Substring test on character lists: `containsSub needle hay` is true iff
`needle` occurs contiguously in `hay`.  Models JS `String.prototype.includes`. -/
def containsSub (needle : List Char) : List Char → Bool
  | [] => needle.isEmpty
  | c :: tl => needle.isPrefixOf (c :: tl) || containsSub needle tl

/-- JS `hay.includes(needle)` for strings. -/
def strIncludes (hay needle : String) : Bool :=
  containsSub needle.data hay.data

/-- Value of a decimal digit run, most significant first. -/
def digitsToNat (cs : List Char) : Nat :=
  cs.foldl (fun acc c => acc * 10 + (c.toNat - 48)) 0

/-- Value of a hexadecimal digit. -/
def hexVal (c : Char) : Nat :=
  if c.isDigit then c.toNat - 48
  else if 'a' ≤ c ∧ c ≤ 'f' then c.toNat - 87
  else c.toNat - 55

def isHexDigit (c : Char) : Bool :=
  c.isDigit || ('a' ≤ c && c ≤ 'f') || ('A' ≤ c && c ≤ 'F')

/-- Value of a hexadecimal digit run, most significant first. -/
def hexDigitsToNat (cs : List Char) : Nat :=
  cs.foldl (fun acc c => acc * 16 + hexVal c) 0

/-- JS `parseInt(s)` with no radix argument: skip leading whitespace, read an
optional sign, then either a `0x`/`0X` hexadecimal literal or the longest run
of decimal digits; `none` models the `NaN` result when no digit is found. -/
def jsParseInt (s : String) : Option Int :=
  let cs := s.data.dropWhile (fun c => c.isWhitespace)
  let signAndRest : Int × List Char :=
    match cs with
    | '-' :: rest => (-1, rest)
    | '+' :: rest => (1, rest)
    | _ => (1, cs)
  let sign := signAndRest.1
  let rest := signAndRest.2
  match rest with
  | '0' :: x :: hs =>
    if x = 'x' ∨ x = 'X' then
      let hex := hs.takeWhile isHexDigit
      if hex.isEmpty then none
      else some (sign * (hexDigitsToNat hex : Int))
    else
      let digits := (('0' :: x :: hs).takeWhile (fun c => c.isDigit))
      some (sign * (digitsToNat digits : Int))
  | _ =>
    let digits := rest.takeWhile (fun c => c.isDigit)
    if digits.isEmpty then none
    else some (sign * (digitsToNat digits : Int))

/-! ## Resilient request executor (`figmaApiRequest`) -/

/-- One scripted HTTP response: its status code, the value of its
`retry-after` header (`none` when the header is absent), and an abstract
identifier for the JSON body that `response.json()` would yield. -/
structure HttpResponse where
  status : Nat
  retryAfter : Option String := none
  body : Nat := 0
deriving DecidableEq, Repr

/-- Outcome of one `fetch`: either a response, or a thrown network error. -/
inductive FetchResult
  | resp (r : HttpResponse)
  | netErr (msg : String)
deriving DecidableEq, Repr

/-- Observable events of one executor call: each issued attempt, each
rate-limit wait (in milliseconds; `none` models a `NaN` wait produced by an
unparseable `retry-after` header), and each exponential-backoff wait. -/
inductive RetryEvent
  | attempt (n : Nat)
  | rateLimitWait (ms : Option Int)
  | backoffWait (ms : Nat)
deriving DecidableEq, Repr

/-- `response.ok`: status in the 2xx range (node-fetch: 200 ≤ status < 300). -/
def respOk (r : HttpResponse) : Bool :=
  200 ≤ r.status && r.status < 300

def notFoundMsg : String :=
  "File not found or you do not have access to this file."

def invalidTokenMsg : String :=
  "Invalid Figma token. Please check your FIGMA_TOKEN."

def statusMsg (code : Nat) : String :=
  "API request failed with status " ++ toString code

def rateLimitMsg (maxRetries : Nat) : String :=
  "Rate limit exceeded after " ++ toString maxRetries ++
    " attempts. Please wait a few minutes and try again."

/-- The message thrown for a non-ok, non-429 response. -/
def errorMsgFor (code : Nat) : String :=
  if code = 404 then notFoundMsg
  else if code = 401 then invalidTokenMsg
  else statusMsg code

/-- The catch block's do-not-retry test:
`error.message.includes('401') || error.message.includes('404') ||
error.message.includes('Invalid Figma token')`. -/
def isNoRetryMsg (msg : String) : Bool :=
  strIncludes msg "401" || strIncludes msg "404" ||
    strIncludes msg "Invalid Figma token"

/-- `parseInt(response.headers.get('retry-after') || '60')`: the literal
`'60'` replaces the header only when it is absent (`null`) or the empty
string (both falsy); a present non-numeric header still reaches `parseInt`
and yields `NaN` (`none`). -/
def retryAfterParse (header : Option String) : Option Int :=
  jsParseInt (match header with
    | none => "60"
    | some s => if s = "" then "60" else s)

/-- The 429 branch's wait time in milliseconds:
`attempt === 1 ? Math.min(retryAfter * 1000, 30000) : 2^(attempt-1) * 1000`.
`none` models `NaN` (propagated through `Math.min`). -/
def rateLimitWaitTime (attempt : Nat) (header : Option String) : Option Int :=
  if attempt = 1 then
    (retryAfterParse header).map (fun r => min (r * 1000) 30000)
  else
    some ((2 : Int) ^ (attempt - 1) * 1000)

/-- The catch block's backoff wait: `Math.min(2^(attempt-1) * 1000, 8000)`. -/
def backoffWaitTime (attempt : Nat) : Nat :=
  min (2 ^ (attempt - 1) * 1000) 8000

/-- The retry loop of `figmaApiRequest`, one iteration per `fuel` unit.
`attempt` is the 1-based loop counter; the head of `script` is what the
iteration's `fetch` produces (an exhausted script behaves as a thrown
network error).  Returns the emitted events and either the parsed 2xx body
or the message of the error finally thrown.  The executor always calls
this with `fuel = maxRetries - attempt + 1 ≥ 1`, so the `0` case is dead. -/
def figmaApiGo : Nat → Nat → Nat → List FetchResult →
    List RetryEvent × Except String Nat
  | 0, _, _, _ => ([], Except.error "")
  | fuel + 1, maxRetries, attempt, script =>
    let fr := match script with
      | [] => FetchResult.netErr "fetch failed"
      | r :: _ => r
    let rest := match script with
      | [] => []
      | _ :: tl => tl
    let withAttempt := fun (p : List RetryEvent × Except String Nat) =>
      (RetryEvent.attempt attempt :: p.1, p.2)
    withAttempt <|
      match fr with
      | FetchResult.resp r =>
        if respOk r then
          ([], Except.ok r.body)
        else if r.status = 429 then
          let wait := rateLimitWaitTime attempt r.retryAfter
          if attempt < maxRetries then
            let next := figmaApiGo fuel maxRetries (attempt + 1) rest
            (RetryEvent.rateLimitWait wait :: next.1, next.2)
          else
            -- the thrown rate-limit error is caught; `attempt === maxRetries`
            -- breaks the loop, and the last error is rethrown
            ([], Except.error (rateLimitMsg maxRetries))
        else
          let msg := errorMsgFor r.status
          if attempt = maxRetries then ([], Except.error msg)
          else if isNoRetryMsg msg then ([], Except.error msg)
          else
            let next := figmaApiGo fuel maxRetries (attempt + 1) rest
            (RetryEvent.backoffWait (backoffWaitTime attempt) :: next.1, next.2)
      | FetchResult.netErr msg =>
        if attempt = maxRetries then ([], Except.error msg)
        else if isNoRetryMsg msg then ([], Except.error msg)
        else
          let next := figmaApiGo fuel maxRetries (attempt + 1) rest
          (RetryEvent.backoffWait (backoffWaitTime attempt) :: next.1, next.2)

/-- `figmaApiRequest(url, token, spinner, maxRetries)`, with the sequence of
fetch outcomes scripted by `script`.  With `maxRetries = 0` the loop body
never runs and the function throws the undefined `lastError`. -/
def figmaApiRequest (script : List FetchResult) (maxRetries : Nat := 3) :
    List RetryEvent × Except String Nat :=
  if maxRetries = 0 then ([], Except.error "undefined")
  else figmaApiGo maxRetries maxRetries 1 script

/-! ## Colors and the color formatter (`rgbaToString`) -/

/-- A JS color object `{r, g, b, a}` with channels as JS numbers. -/
structure Rgba where
  r : ℚ
  g : ℚ
  b : ℚ
  a : ℚ
deriving DecidableEq, Repr

/-- `Math.round(x)`: the nearest integer, halves rounded up, i.e.
`⌊x + 1/2⌋`, computed as a floor division of the rational's parts. -/
def jsRound (x : ℚ) : ℤ :=
  let y := x + 1 / 2
  y.num.fdiv (y.den : ℤ)

/-- A CSS color literal: `rgb(R, G, B)` or `rgba(R, G, B, A)`.  The JS
template strings producing these are injective on this shape. -/
inductive CssColor
  | rgb (r g b : ℤ)
  | rgba (r g b : ℤ) (a : ℚ)
deriving DecidableEq, Repr

/-- `rgbaToString(color)`: channels scaled by 255 and rounded; the alpha
channel is kept verbatim when `a < 1` and dropped otherwise. -/
def rgbaToString (color : Rgba) : CssColor :=
  let r := jsRound (color.r * 255)
  let g := jsRound (color.g * 255)
  let b := jsRound (color.b * 255)
  if color.a < 1 then CssColor.rgba r g b color.a
  else CssColor.rgb r g b

/-! ## Design nodes -/

/-- `absoluteBoundingBox` record. -/
structure BoundingBox where
  x : ℚ
  y : ℚ
  width : ℚ
  height : ℚ
deriving DecidableEq, Repr

/-- One entry of a `fills` or `strokes` array: the fields the style deriver
reads.  `visible` is `none` when the flag is absent, `color` is `none` when
the paint carries no color object. -/
structure Paint where
  type : String := ""
  visible : Option Bool := none
  color : Option Rgba := none
  opacity : Option ℚ := none
deriving DecidableEq, Repr

/-- The `style` record of a TEXT node: the fields the style deriver reads. -/
structure TextStyle where
  fontSize : Option ℚ := none
  fontFamily : Option String := none
  fontWeight : Option ℚ := none
  letterSpacing : Option ℚ := none
  lineHeightPx : Option ℚ := none
  textAlignHorizontal : Option String := none
deriving DecidableEq, Repr

/-- A design node (`FigmaNode` interface): the fields read by
`getStyleFromNode`, `sanitizeComponentName` and the compiler facade.
`children`/`effects` are not modelled: no modelled function reads them. -/
structure FigmaNode where
  id : String := ""
  name : String := ""
  type : String := ""
  absoluteBoundingBox : Option BoundingBox := none
  backgroundColor : Option Rgba := none
  fills : Option (List Paint) := none
  strokes : Option (List Paint) := none
  cornerRadius : Option ℚ := none
  characters : Option String := none
  style : Option TextStyle := none
  layoutMode : Option String := none
  primaryAxisAlignItems : Option String := none
  counterAxisAlignItems : Option String := none
  paddingLeft : Option ℚ := none
  paddingRight : Option ℚ := none
  paddingTop : Option ℚ := none
  paddingBottom : Option ℚ := none
  itemSpacing : Option ℚ := none
  layoutAlign : Option String := none
  layoutGrow : Option ℚ := none
  opacity : Option ℚ := none
deriving DecidableEq, Repr

/-- Truthiness of an optional JS string: present and non-empty. -/
def jsTruthyStr : Option String → Bool
  | none => false
  | some s => s ≠ ""

/-- Truthiness of an optional JS number: present and non-zero. -/
def jsTruthyNum : Option ℚ → Bool
  | none => false
  | some v => v ≠ 0

/-! ## Style declarations and the style deriver (`getStyleFromNode`) -/

/-- A value stored in the style object: `px v` stands for the string
`"\x7bv}px"`, `color c` for a formatted color, `border c` for
`"1px solid \x7bc}"`, `str s` for the literal string `s`, and `num v` for a
raw numeric value. -/
inductive StyleValue
  | px (v : ℚ)
  | color (c : CssColor)
  | border (c : CssColor)
  | str (s : String)
  | num (v : ℚ)
deriving DecidableEq, Repr

/-- The style object built by `getStyleFromNode`; every property is absent
(`none`) in the initial `{}`. -/
structure Style where
  width : Option StyleValue := none
  height : Option StyleValue := none
  backgroundColor : Option StyleValue := none
  borderRadius : Option StyleValue := none
  border : Option StyleValue := none
  opacity : Option StyleValue := none
  display : Option StyleValue := none
  flexDirection : Option StyleValue := none
  justifyContent : Option StyleValue := none
  alignItems : Option StyleValue := none
  paddingLeft : Option StyleValue := none
  paddingRight : Option StyleValue := none
  paddingTop : Option StyleValue := none
  paddingBottom : Option StyleValue := none
  gap : Option StyleValue := none
  flexGrow : Option StyleValue := none
  fontSize : Option StyleValue := none
  fontFamily : Option StyleValue := none
  fontWeight : Option StyleValue := none
  letterSpacing : Option StyleValue := none
  lineHeight : Option StyleValue := none
  textAlign : Option StyleValue := none
deriving DecidableEq, Repr

/-- The fill color actually formatted:
`fill.opacity !== undefined ? { ...fill.color, a: fill.opacity } : { ...fill.color, a: 1 }`. -/
def appliedFillColor (fill : Paint) (c : Rgba) : Rgba :=
  match fill.opacity with
  | some o => { c with a := o }
  | none => { c with a := 1 }

/-- Block 1: bounding box → width/height. -/
def styleBBox (node : FigmaNode) (style : Style) : Style :=
  match node.absoluteBoundingBox with
  | some bb => { style with
      width := some (StyleValue.px bb.width),
      height := some (StyleValue.px bb.height) }
  | none => style

/-- Block 2: flat `backgroundColor`. -/
def styleBackground (node : FigmaNode) (style : Style) : Style :=
  match node.backgroundColor with
  | some c => { style with backgroundColor := some (StyleValue.color (rgbaToString c)) }
  | none => style

/-- Block 3: first fill, if visible, solid and colored; overwrites the
`backgroundColor` property. -/
def styleFills (node : FigmaNode) (style : Style) : Style :=
  match node.fills with
  | some (fill :: _) =>
    if fill.visible ≠ some false ∧ fill.type = "SOLID" then
      match fill.color with
      | some c =>
        let fillBg := some (StyleValue.color (rgbaToString (appliedFillColor fill c)))
        { style with backgroundColor := fillBg }
      | none => style
    else style
  | _ => style

/-- Block 4: truthy `cornerRadius` → border-radius. -/
def styleCornerRadius (node : FigmaNode) (style : Style) : Style :=
  match node.cornerRadius with
  | some r => if r = 0 then style else { style with borderRadius := some (StyleValue.px r) }
  | none => style

/-- Block 5: first stroke, if visible, solid and colored → opaque 1px border. -/
def styleStrokes (node : FigmaNode) (style : Style) : Style :=
  match node.strokes with
  | some (stroke :: _) =>
    if stroke.visible ≠ some false ∧ stroke.type = "SOLID" then
      match stroke.color with
      | some c =>
        let b := some (StyleValue.border (rgbaToString { c with a := 1 }))
        { style with border := b }
      | none => style
    else style
  | _ => style

/-- Block 6: node opacity, only when present and `< 1`. -/
def styleOpacity (node : FigmaNode) (style : Style) : Style :=
  match node.opacity with
  | some v => if v < 1 then { style with opacity := some (StyleValue.num v) } else style
  | none => style

/-- `alignMap[p] || 'flex-start'` for the primary axis. -/
def primaryAlignMap (p : String) : String :=
  if p = "MIN" then "flex-start"
  else if p = "CENTER" then "center"
  else if p = "MAX" then "flex-end"
  else if p = "SPACE_BETWEEN" then "space-between"
  else "flex-start"

/-- `alignMap[c] || 'flex-start'` for the counter axis. -/
def counterAlignMap (c : String) : String :=
  if c = "MIN" then "flex-start"
  else if c = "CENTER" then "center"
  else if c = "MAX" then "flex-end"
  else "flex-start"

/-- `if (node.primaryAxisAlignItems) style.justifyContent = ...`. -/
def styleJustifyContent (node : FigmaNode) (style : Style) : Style :=
  match node.primaryAxisAlignItems with
  | some p =>
    if p = "" then style
    else { style with justifyContent := some (StyleValue.str (primaryAlignMap p)) }
  | none => style

/-- `if (node.counterAxisAlignItems) style.alignItems = ...`. -/
def styleAlignItems (node : FigmaNode) (style : Style) : Style :=
  match node.counterAxisAlignItems with
  | some c =>
    if c = "" then style
    else { style with alignItems := some (StyleValue.str (counterAlignMap c)) }
  | none => style

/-- `if (node.paddingLeft) style.paddingLeft = `...px``. -/
def stylePaddingLeft (node : FigmaNode) (style : Style) : Style :=
  match node.paddingLeft with
  | some v => if v = 0 then style else { style with paddingLeft := some (StyleValue.px v) }
  | none => style

def stylePaddingRight (node : FigmaNode) (style : Style) : Style :=
  match node.paddingRight with
  | some v => if v = 0 then style else { style with paddingRight := some (StyleValue.px v) }
  | none => style

def stylePaddingTop (node : FigmaNode) (style : Style) : Style :=
  match node.paddingTop with
  | some v => if v = 0 then style else { style with paddingTop := some (StyleValue.px v) }
  | none => style

def stylePaddingBottom (node : FigmaNode) (style : Style) : Style :=
  match node.paddingBottom with
  | some v => if v = 0 then style else { style with paddingBottom := some (StyleValue.px v) }
  | none => style

/-- `if (node.itemSpacing) style.gap = `...px``. -/
def styleGap (node : FigmaNode) (style : Style) : Style :=
  match node.itemSpacing with
  | some v => if v = 0 then style else { style with gap := some (StyleValue.px v) }
  | none => style

/-- Block 7: the auto-layout block, guarded by a truthy `layoutMode`. -/
def styleLayout (node : FigmaNode) (style : Style) : Style :=
  match node.layoutMode with
  | some m =>
    if m = "" then style
    else
      styleGap node <| stylePaddingBottom node <| stylePaddingTop node <|
        stylePaddingRight node <| stylePaddingLeft node <|
          styleAlignItems node <| styleJustifyContent node <|
            { style with
                display := some (StyleValue.str "flex"),
                flexDirection := some (StyleValue.str
                  (if m = "HORIZONTAL" then "row" else "column")) }
  | none => style

/-- Block 8: `layoutGrow` present and `> 0` → flex-grow. -/
def styleLayoutGrow (node : FigmaNode) (style : Style) : Style :=
  match node.layoutGrow with
  | some v => if v > 0 then { style with flexGrow := some (StyleValue.num v) } else style
  | none => style

/-- `alignMap[t] || 'left'` for horizontal text alignment. -/
def textAlignMap (t : String) : String :=
  if t = "LEFT" then "left"
  else if t = "CENTER" then "center"
  else if t = "RIGHT" then "right"
  else if t = "JUSTIFIED" then "justify"
  else "left"

/-- `if (node.style.fontSize) style.fontSize = `...px``. -/
def styleFontSize (ts : TextStyle) (style : Style) : Style :=
  match ts.fontSize with
  | some v => if v = 0 then style else { style with fontSize := some (StyleValue.px v) }
  | none => style

/-- `if (node.style.fontFamily) style.fontFamily = node.style.fontFamily`. -/
def styleFontFamily (ts : TextStyle) (style : Style) : Style :=
  match ts.fontFamily with
  | some f => if f = "" then style else { style with fontFamily := some (StyleValue.str f) }
  | none => style

/-- `if (node.style.fontWeight) style.fontWeight = node.style.fontWeight`. -/
def styleFontWeight (ts : TextStyle) (style : Style) : Style :=
  match ts.fontWeight with
  | some v => if v = 0 then style else { style with fontWeight := some (StyleValue.num v) }
  | none => style

/-- `if (node.style.letterSpacing) style.letterSpacing = `...px``. -/
def styleLetterSpacing (ts : TextStyle) (style : Style) : Style :=
  match ts.letterSpacing with
  | some v => if v = 0 then style else { style with letterSpacing := some (StyleValue.px v) }
  | none => style

/-- `if (node.style.lineHeightPx) style.lineHeight = `...px``. -/
def styleLineHeight (ts : TextStyle) (style : Style) : Style :=
  match ts.lineHeightPx with
  | some v => if v = 0 then style else { style with lineHeight := some (StyleValue.px v) }
  | none => style

/-- `if (node.style.textAlignHorizontal) style.textAlign = ...`. -/
def styleTextAlignH (ts : TextStyle) (style : Style) : Style :=
  match ts.textAlignHorizontal with
  | some t =>
    if t = "" then style
    else { style with textAlign := some (StyleValue.str (textAlignMap t)) }
  | none => style

/-- Block 9: text styles, guarded by `node.type === 'TEXT' && node.style`. -/
def styleText (node : FigmaNode) (style : Style) : Style :=
  if node.type = "TEXT" then
    match node.style with
    | some ts =>
      styleTextAlignH ts <| styleLineHeight ts <| styleLetterSpacing ts <|
        styleFontWeight ts <| styleFontFamily ts <| styleFontSize ts style
    | none => style
  else style

/-- `getStyleFromNode(node)`: the nine blocks applied in source order to the
empty style object. -/
def getStyleFromNode (node : FigmaNode) : Style :=
  styleText node <| styleLayoutGrow node <| styleLayout node <|
    styleOpacity node <| styleStrokes node <| styleCornerRadius node <|
      styleFills node <| styleBackground node <| styleBBox node {}

/-! ## Component name sanitization (`sanitizeComponentName`) and the
compiler facade's name resolution (`generateReactComponent`) -/

/-- A character matched by the class `[\s-_/]` of the split regex. -/
def isSepChar (c : Char) : Bool :=
  c.isWhitespace || c = '-' || c = '_' || c = '/'

/-- Collapse every run of separator characters to a single `'-'`, so that a
plain character split reproduces `split(/[\s-_/]+/)` (runs act as one
delimiter; leading/trailing runs leave empty fields). -/
def collapseSepsGo : Bool → List Char → List Char
  | _, [] => []
  | prevSep, c :: cs =>
    if isSepChar c then
      if prevSep then collapseSepsGo true cs
      else '-' :: collapseSepsGo true cs
    else c :: collapseSepsGo false cs

/-- Split at every separator character, keeping empty fields. -/
def splitOnSepGo : List Char → List Char → List (List Char)
  | acc, [] => [acc.reverse]
  | acc, c :: cs =>
    if isSepChar c then acc.reverse :: splitOnSepGo [] cs
    else splitOnSepGo (c :: acc) cs

/-- `name.split(/[\s-_/]+/)` as lists of characters. -/
def jsSplitSeps (s : String) : List (List Char) :=
  splitOnSepGo [] (collapseSepsGo false s.data)

/-- `word.charAt(0).toUpperCase() + word.slice(1).toLowerCase()` (ASCII case
mapping; `charAt(0)` of an empty word is the empty string). -/
def titleCaseWord : List Char → List Char
  | [] => []
  | c :: cs => c.toUpper :: cs.map Char.toLower

/-- `sanitizeComponentName(name)`: split on whitespace/hyphen/underscore/
slash runs, title-case each segment, join, drop every non-alphanumeric
character, and fall back to `"Component"` when the result is empty
(`|| 'Component'`). -/
def sanitizeComponentName (name : String) : String :=
  let joined := ((jsSplitSeps name).map titleCaseWord).flatten
  let result := String.mk (joined.filter (fun c => c.isAlphanum))
  if result = "" then "Component" else result

/-- The name resolution of `generateReactComponent`:
`componentName || sanitizeComponentName(figmaNode.name)` (an absent or empty
`componentName` is falsy). -/
def generateReactComponentName (componentName : Option String)
    (figmaNode : FigmaNode) : String :=
  match componentName with
  | some n => if n = "" then sanitizeComponentName figmaNode.name else n
  | none => sanitizeComponentName figmaNode.name

/-! ## Field-wise characterization of the style deriver

Each block of `getStyleFromNode` writes only its own properties, so every
property of the result is a function of the node and of the property's
previous value.  The `upd*` functions below state those per-property
transformations; the `_eq` lemmas prove that each block equals a single
record update, and `getStyleFromNode_eq` assembles them into a closed form
for the whole deriver. -/

def updWidth (node : FigmaNode) (old : Option StyleValue) : Option StyleValue :=
  match node.absoluteBoundingBox with
  | some bb => some (StyleValue.px bb.width)
  | none => old

def updHeight (node : FigmaNode) (old : Option StyleValue) : Option StyleValue :=
  match node.absoluteBoundingBox with
  | some bb => some (StyleValue.px bb.height)
  | none => old

def updFlatBg (node : FigmaNode) (old : Option StyleValue) : Option StyleValue :=
  match node.backgroundColor with
  | some c => some (StyleValue.color (rgbaToString c))
  | none => old

def updFillBg (node : FigmaNode) (old : Option StyleValue) : Option StyleValue :=
  match node.fills with
  | some (fill :: _) =>
    if fill.visible ≠ some false ∧ fill.type = "SOLID" then
      match fill.color with
      | some c => some (StyleValue.color (rgbaToString (appliedFillColor fill c)))
      | none => old
    else old
  | _ => old

def updBorderRadius (node : FigmaNode) (old : Option StyleValue) : Option StyleValue :=
  match node.cornerRadius with
  | some r => if r = 0 then old else some (StyleValue.px r)
  | none => old

def updBorder (node : FigmaNode) (old : Option StyleValue) : Option StyleValue :=
  match node.strokes with
  | some (stroke :: _) =>
    if stroke.visible ≠ some false ∧ stroke.type = "SOLID" then
      match stroke.color with
      | some c => some (StyleValue.border (rgbaToString { c with a := 1 }))
      | none => old
    else old
  | _ => old

def updOpacity (node : FigmaNode) (old : Option StyleValue) : Option StyleValue :=
  match node.opacity with
  | some v => if v < 1 then some (StyleValue.num v) else old
  | none => old

def updJustify (node : FigmaNode) (old : Option StyleValue) : Option StyleValue :=
  match node.primaryAxisAlignItems with
  | some p => if p = "" then old else some (StyleValue.str (primaryAlignMap p))
  | none => old

def updAlign (node : FigmaNode) (old : Option StyleValue) : Option StyleValue :=
  match node.counterAxisAlignItems with
  | some c => if c = "" then old else some (StyleValue.str (counterAlignMap c))
  | none => old

def updPx (v? : Option ℚ) (old : Option StyleValue) : Option StyleValue :=
  match v? with
  | some v => if v = 0 then old else some (StyleValue.px v)
  | none => old

/-- The layout-block guard: apply `f` only when `layoutMode` is truthy. -/
def layGuard (node : FigmaNode) (f : Option StyleValue → Option StyleValue)
    (old : Option StyleValue) : Option StyleValue :=
  match node.layoutMode with
  | some m => if m = "" then old else f old
  | none => old

def updDisplay (node : FigmaNode) (old : Option StyleValue) : Option StyleValue :=
  layGuard node (fun _ => some (StyleValue.str "flex")) old

def updFlexDirection (node : FigmaNode) (old : Option StyleValue) : Option StyleValue :=
  match node.layoutMode with
  | some m =>
    if m = "" then old
    else some (StyleValue.str (if m = "HORIZONTAL" then "row" else "column"))
  | none => old

def updFlexGrow (node : FigmaNode) (old : Option StyleValue) : Option StyleValue :=
  match node.layoutGrow with
  | some v => if v > 0 then some (StyleValue.num v) else old
  | none => old

def updFontSize (ts : TextStyle) (old : Option StyleValue) : Option StyleValue :=
  match ts.fontSize with
  | some v => if v = 0 then old else some (StyleValue.px v)
  | none => old

def updFontFamily (ts : TextStyle) (old : Option StyleValue) : Option StyleValue :=
  match ts.fontFamily with
  | some f => if f = "" then old else some (StyleValue.str f)
  | none => old

def updFontWeight (ts : TextStyle) (old : Option StyleValue) : Option StyleValue :=
  match ts.fontWeight with
  | some v => if v = 0 then old else some (StyleValue.num v)
  | none => old

def updLetterSpacing (ts : TextStyle) (old : Option StyleValue) : Option StyleValue :=
  match ts.letterSpacing with
  | some v => if v = 0 then old else some (StyleValue.px v)
  | none => old

def updLineHeight (ts : TextStyle) (old : Option StyleValue) : Option StyleValue :=
  match ts.lineHeightPx with
  | some v => if v = 0 then old else some (StyleValue.px v)
  | none => old

def updTextAlign (ts : TextStyle) (old : Option StyleValue) : Option StyleValue :=
  match ts.textAlignHorizontal with
  | some t => if t = "" then old else some (StyleValue.str (textAlignMap t))
  | none => old

/-- The text-block guard: apply `f` to the node's text style only when the
node is a TEXT node carrying a style record. -/
def textGuard (node : FigmaNode) (f : TextStyle → Option StyleValue → Option StyleValue)
    (old : Option StyleValue) : Option StyleValue :=
  if node.type = "TEXT" then
    match node.style with
    | some ts => f ts old
    | none => old
  else old

theorem styleBBox_eq (node : FigmaNode) (s : Style) :
    styleBBox node s =
      { s with width := updWidth node s.width, height := updHeight node s.height } := by
  unfold styleBBox updWidth updHeight
  cases h : node.absoluteBoundingBox <;> rfl

theorem styleBackground_eq (node : FigmaNode) (s : Style) :
    styleBackground node s =
      { s with backgroundColor := updFlatBg node s.backgroundColor } := by
  unfold styleBackground updFlatBg
  cases h : node.backgroundColor <;> rfl

theorem styleFills_eq (node : FigmaNode) (s : Style) :
    styleFills node s =
      { s with backgroundColor := updFillBg node s.backgroundColor } := by
  unfold styleFills updFillBg
  cases h : node.fills with
  | none => rfl
  | some l =>
    cases l with
    | nil => rfl
    | cons fill rest =>
      dsimp only
      by_cases hv : fill.visible ≠ some false ∧ fill.type = "SOLID"
      · rw [if_pos hv, if_pos hv]
        cases hc : fill.color <;> rfl
      · rw [if_neg hv, if_neg hv]

theorem styleCornerRadius_eq (node : FigmaNode) (s : Style) :
    styleCornerRadius node s =
      { s with borderRadius := updBorderRadius node s.borderRadius } := by
  unfold styleCornerRadius updBorderRadius
  cases h : node.cornerRadius with
  | none => rfl
  | some r => by_cases h0 : r = 0 <;> simp [h0]

theorem styleStrokes_eq (node : FigmaNode) (s : Style) :
    styleStrokes node s = { s with border := updBorder node s.border } := by
  unfold styleStrokes updBorder
  cases h : node.strokes with
  | none => rfl
  | some l =>
    cases l with
    | nil => rfl
    | cons stroke rest =>
      dsimp only
      by_cases hv : stroke.visible ≠ some false ∧ stroke.type = "SOLID"
      · rw [if_pos hv, if_pos hv]
        cases hc : stroke.color <;> rfl
      · rw [if_neg hv, if_neg hv]

theorem styleOpacity_eq (node : FigmaNode) (s : Style) :
    styleOpacity node s = { s with opacity := updOpacity node s.opacity } := by
  unfold styleOpacity updOpacity
  cases h : node.opacity with
  | none => rfl
  | some v => by_cases h1 : v < 1 <;> simp [h1]

theorem styleJustifyContent_eq (node : FigmaNode) (s : Style) :
    styleJustifyContent node s =
      { s with justifyContent := updJustify node s.justifyContent } := by
  unfold styleJustifyContent updJustify
  cases h : node.primaryAxisAlignItems with
  | none => rfl
  | some p => by_cases h0 : p = "" <;> simp [h0]

theorem styleAlignItems_eq (node : FigmaNode) (s : Style) :
    styleAlignItems node s = { s with alignItems := updAlign node s.alignItems } := by
  unfold styleAlignItems updAlign
  cases h : node.counterAxisAlignItems with
  | none => rfl
  | some c => by_cases h0 : c = "" <;> simp [h0]

theorem stylePaddingLeft_eq (node : FigmaNode) (s : Style) :
    stylePaddingLeft node s =
      { s with paddingLeft := updPx node.paddingLeft s.paddingLeft } := by
  unfold stylePaddingLeft updPx
  cases h : node.paddingLeft with
  | none => rfl
  | some v => by_cases h0 : v = 0 <;> simp [h0]

theorem stylePaddingRight_eq (node : FigmaNode) (s : Style) :
    stylePaddingRight node s =
      { s with paddingRight := updPx node.paddingRight s.paddingRight } := by
  unfold stylePaddingRight updPx
  cases h : node.paddingRight with
  | none => rfl
  | some v => by_cases h0 : v = 0 <;> simp [h0]

theorem stylePaddingTop_eq (node : FigmaNode) (s : Style) :
    stylePaddingTop node s =
      { s with paddingTop := updPx node.paddingTop s.paddingTop } := by
  unfold stylePaddingTop updPx
  cases h : node.paddingTop with
  | none => rfl
  | some v => by_cases h0 : v = 0 <;> simp [h0]

theorem stylePaddingBottom_eq (node : FigmaNode) (s : Style) :
    stylePaddingBottom node s =
      { s with paddingBottom := updPx node.paddingBottom s.paddingBottom } := by
  unfold stylePaddingBottom updPx
  cases h : node.paddingBottom with
  | none => rfl
  | some v => by_cases h0 : v = 0 <;> simp [h0]

theorem styleGap_eq (node : FigmaNode) (s : Style) :
    styleGap node s = { s with gap := updPx node.itemSpacing s.gap } := by
  unfold styleGap updPx
  cases h : node.itemSpacing with
  | none => rfl
  | some v => by_cases h0 : v = 0 <;> simp [h0]

theorem styleLayoutGrow_eq (node : FigmaNode) (s : Style) :
    styleLayoutGrow node s = { s with flexGrow := updFlexGrow node s.flexGrow } := by
  unfold styleLayoutGrow updFlexGrow
  cases h : node.layoutGrow with
  | none => rfl
  | some v => by_cases h0 : v > 0 <;> simp [h0]

theorem styleLayout_eq (node : FigmaNode) (s : Style) :
    styleLayout node s =
      { s with
          display := updDisplay node s.display,
          flexDirection := updFlexDirection node s.flexDirection,
          justifyContent := layGuard node (updJustify node) s.justifyContent,
          alignItems := layGuard node (updAlign node) s.alignItems,
          paddingLeft := layGuard node (updPx node.paddingLeft) s.paddingLeft,
          paddingRight := layGuard node (updPx node.paddingRight) s.paddingRight,
          paddingTop := layGuard node (updPx node.paddingTop) s.paddingTop,
          paddingBottom := layGuard node (updPx node.paddingBottom) s.paddingBottom,
          gap := layGuard node (updPx node.itemSpacing) s.gap } := by
  unfold styleLayout updDisplay updFlexDirection layGuard
  cases h : node.layoutMode with
  | none => rfl
  | some m =>
    dsimp only
    by_cases h0 : m = ""
    · simp only [if_pos h0]
    · simp only [if_neg h0]
      simp only [styleJustifyContent_eq, styleAlignItems_eq, stylePaddingLeft_eq,
        stylePaddingRight_eq, stylePaddingTop_eq, stylePaddingBottom_eq, styleGap_eq]

theorem styleFontSize_eq (ts : TextStyle) (s : Style) :
    styleFontSize ts s = { s with fontSize := updFontSize ts s.fontSize } := by
  unfold styleFontSize updFontSize
  cases h : ts.fontSize with
  | none => rfl
  | some v => by_cases h0 : v = 0 <;> simp [h0]

theorem styleFontFamily_eq (ts : TextStyle) (s : Style) :
    styleFontFamily ts s = { s with fontFamily := updFontFamily ts s.fontFamily } := by
  unfold styleFontFamily updFontFamily
  cases h : ts.fontFamily with
  | none => rfl
  | some f => by_cases h0 : f = "" <;> simp [h0]

theorem styleFontWeight_eq (ts : TextStyle) (s : Style) :
    styleFontWeight ts s = { s with fontWeight := updFontWeight ts s.fontWeight } := by
  unfold styleFontWeight updFontWeight
  cases h : ts.fontWeight with
  | none => rfl
  | some v => by_cases h0 : v = 0 <;> simp [h0]

theorem styleLetterSpacing_eq (ts : TextStyle) (s : Style) :
    styleLetterSpacing ts s =
      { s with letterSpacing := updLetterSpacing ts s.letterSpacing } := by
  unfold styleLetterSpacing updLetterSpacing
  cases h : ts.letterSpacing with
  | none => rfl
  | some v => by_cases h0 : v = 0 <;> simp [h0]

theorem styleLineHeight_eq (ts : TextStyle) (s : Style) :
    styleLineHeight ts s = { s with lineHeight := updLineHeight ts s.lineHeight } := by
  unfold styleLineHeight updLineHeight
  cases h : ts.lineHeightPx with
  | none => rfl
  | some v => by_cases h0 : v = 0 <;> simp [h0]

theorem styleTextAlignH_eq (ts : TextStyle) (s : Style) :
    styleTextAlignH ts s = { s with textAlign := updTextAlign ts s.textAlign } := by
  unfold styleTextAlignH updTextAlign
  cases h : ts.textAlignHorizontal with
  | none => rfl
  | some t => by_cases h0 : t = "" <;> simp [h0]

theorem styleText_eq (node : FigmaNode) (s : Style) :
    styleText node s =
      { s with
          fontSize := textGuard node updFontSize s.fontSize,
          fontFamily := textGuard node updFontFamily s.fontFamily,
          fontWeight := textGuard node updFontWeight s.fontWeight,
          letterSpacing := textGuard node updLetterSpacing s.letterSpacing,
          lineHeight := textGuard node updLineHeight s.lineHeight,
          textAlign := textGuard node updTextAlign s.textAlign } := by
  unfold styleText textGuard
  by_cases ht : node.type = "TEXT"
  · simp only [if_pos ht]
    cases hs : node.style with
    | none => rfl
    | some ts =>
      dsimp only
      simp only [styleFontSize_eq, styleFontFamily_eq, styleFontWeight_eq,
        styleLetterSpacing_eq, styleLineHeight_eq, styleTextAlignH_eq]
  · simp only [if_neg ht]

/-- Closed form of the style deriver: every property of the result as a
function of the node alone (every property of the initial `{}` is `none`). -/
theorem getStyleFromNode_eq (node : FigmaNode) :
    getStyleFromNode node =
      { width := updWidth node none,
        height := updHeight node none,
        backgroundColor := updFillBg node (updFlatBg node none),
        borderRadius := updBorderRadius node none,
        border := updBorder node none,
        opacity := updOpacity node none,
        display := updDisplay node none,
        flexDirection := updFlexDirection node none,
        justifyContent := layGuard node (updJustify node) none,
        alignItems := layGuard node (updAlign node) none,
        paddingLeft := layGuard node (updPx node.paddingLeft) none,
        paddingRight := layGuard node (updPx node.paddingRight) none,
        paddingTop := layGuard node (updPx node.paddingTop) none,
        paddingBottom := layGuard node (updPx node.paddingBottom) none,
        gap := layGuard node (updPx node.itemSpacing) none,
        flexGrow := updFlexGrow node none,
        fontSize := textGuard node updFontSize none,
        fontFamily := textGuard node updFontFamily none,
        fontWeight := textGuard node updFontWeight none,
        letterSpacing := textGuard node updLetterSpacing none,
        lineHeight := textGuard node updLineHeight none,
        textAlign := textGuard node updTextAlign none } := by
  unfold getStyleFromNode
  simp only [styleBBox_eq, styleBackground_eq, styleFills_eq, styleCornerRadius_eq,
    styleStrokes_eq, styleOpacity_eq, styleLayout_eq, styleLayoutGrow_eq, styleText_eq]

/-! ## Claim theorems -/

/-- Event classifiers used to count waits and attempts in a trace. -/
def isRateLimitWaitEvt : RetryEvent → Bool
  | RetryEvent.rateLimitWait _ => true
  | _ => false

def isBackoffWaitEvt : RetryEvent → Bool
  | RetryEvent.backoffWait _ => true
  | _ => false

def isAttemptEvt : RetryEvent → Bool
  | RetryEvent.attempt _ => true
  | _ => false

/-- A server that answers HTTP 404 on every attempt. -/
def all404Script : List FetchResult :=
  [FetchResult.resp ⟨404, none, 0⟩, FetchResult.resp ⟨404, none, 0⟩,
    FetchResult.resp ⟨404, none, 0⟩]

/-- Claim C1 (code bug): with `maxRetries = 3` and a 404 on the first
attempt, the executor does NOT fail immediately: it performs a 1 s and a
2 s backoff wait and issues three attempts before surfacing the not-found
error, because the thrown not-found message does not contain any of the
do-not-retry markers (in particular not the substring searched for by
`error.message.includes` in the catch block). -/
theorem c1_404_first_attempt_is_retried :
    figmaApiRequest all404Script 3 =
      ([RetryEvent.attempt 1, RetryEvent.backoffWait 1000,
        RetryEvent.attempt 2, RetryEvent.backoffWait 2000,
        RetryEvent.attempt 3], Except.error notFoundMsg)
    ∧ isNoRetryMsg notFoundMsg = false
    ∧ ((figmaApiRequest all404Script 3).1.filter isAttemptEvt).length = 3
    ∧ ((figmaApiRequest all404Script 3).1.filter isBackoffWaitEvt).length = 2 :=
  ⟨rfl, rfl, rfl, rfl⟩

/-- A 429 answer carrying a non-numeric `retry-after` header, then a 200. -/
def unparseable429Script : List FetchResult :=
  [FetchResult.resp ⟨429, some "abc", 0⟩, FetchResult.resp ⟨200, none, 7⟩]

/-- Claim C2 (counterexample): with a present but non-numeric `retry-after`
header (`"abc"`), the first-attempt rate-limit wait is the `NaN` wait, not
the `min(60 s, 30 s) = 30 s` wait the claimed 60-second default would
give. -/
theorem c2_unparseable_header_counterexample :
    figmaApiRequest unparseable429Script 3 =
      ([RetryEvent.attempt 1, RetryEvent.rateLimitWait none,
        RetryEvent.attempt 2], Except.ok 7)
    ∧ retryAfterParse (some "abc") = none
    ∧ RetryEvent.rateLimitWait none ≠ RetryEvent.rateLimitWait (some 30000)
    ∧ min ((60 : Int) * 1000) 30000 = 30000 :=
  ⟨rfl, rfl, by decide, by decide⟩

/-- Claim C2 (amended): a 429 on an attempt that is not the last allowed
one always emits a rate-limit wait of `rateLimitWaitTime attempt header`:
`min(retry-after × 1000 ms, 30000 ms)` on the first attempt and
`2^(attempt−1)` seconds otherwise, where retry-after is `parseInt` of the
header with `"60"` substituted only when the header is absent or empty —
a present non-numeric header parses to `NaN` (`none`), so the 60-second
default does not apply to it. -/
theorem c2_429_wait_time (f maxRetries attempt : Nat) (h : Option String)
    (b : Nat) (rest : List FetchResult) (hlt : attempt < maxRetries) :
    figmaApiGo (f + 1) maxRetries attempt (FetchResult.resp ⟨429, h, b⟩ :: rest) =
      (RetryEvent.attempt attempt ::
        RetryEvent.rateLimitWait (rateLimitWaitTime attempt h) ::
          (figmaApiGo f maxRetries (attempt + 1) rest).1,
        (figmaApiGo f maxRetries (attempt + 1) rest).2)
    ∧ rateLimitWaitTime 1 h = (retryAfterParse h).map (fun r => min (r * 1000) 30000)
    ∧ (attempt ≠ 1 →
        rateLimitWaitTime attempt h = some ((2 : Int) ^ (attempt - 1) * 1000))
    ∧ (h = none ∨ h = some "" → retryAfterParse h = some 60)
    ∧ retryAfterParse (some "abc") = none := by
  refine ⟨?_, rfl, ?_, ?_, rfl⟩
  · have hok : respOk ⟨429, h, b⟩ = false := rfl
    simp only [figmaApiGo, hok, Bool.false_eq_true, if_false, if_pos hlt]
    rfl
  · intro ha
    unfold rateLimitWaitTime
    rw [if_neg ha]
  · rintro (rfl | rfl) <;> rfl

/-- Witness for `c2_429_wait_time` at a concrete run: attempt 1 of 2, header
`"5"`, so the emitted wait is `min(5000, 30000) = 5000` ms. -/
theorem c2_429_wait_time_witness :
    (1 < 2) ∧
      figmaApiGo 2 2 1
          [FetchResult.resp ⟨429, some "5", 0⟩, FetchResult.resp ⟨200, none, 9⟩] =
        ([RetryEvent.attempt 1, RetryEvent.rateLimitWait (some 5000),
          RetryEvent.attempt 2], Except.ok 9) :=
  ⟨by decide,
    ((c2_429_wait_time 1 2 1 (some "5") 0 [FetchResult.resp ⟨200, none, 9⟩]
        (by decide)).1).trans rfl⟩

/-- The scripted response sequence of the spec's retry test: a 429 with
`retry-after: 2`, then a 500, then a 200 with body `42`. -/
def mixedRetryScript : List FetchResult :=
  [FetchResult.resp ⟨429, some "2", 0⟩, FetchResult.resp ⟨500, none, 0⟩,
    FetchResult.resp ⟨200, none, 42⟩]

/-- Claim C5: against `maxRetries = 3`, the sequence [429 with
retry-after 2, 500, 200] produces exactly one rate-limit wait (2000 ms ≤
30 s), then exactly one backoff wait, then success with the parsed 200
body; three attempts are issued in total. -/
theorem c5_mixed_sequence :
    figmaApiRequest mixedRetryScript 3 =
      ([RetryEvent.attempt 1, RetryEvent.rateLimitWait (some 2000),
        RetryEvent.attempt 2, RetryEvent.backoffWait 2000,
        RetryEvent.attempt 3], Except.ok 42)
    ∧ (figmaApiRequest mixedRetryScript 3).1.filter isRateLimitWaitEvt =
        [RetryEvent.rateLimitWait (some 2000)]
    ∧ ((figmaApiRequest mixedRetryScript 3).1.filter isBackoffWaitEvt).length = 1
    ∧ ((figmaApiRequest mixedRetryScript 3).1.filter isAttemptEvt).length = 3
    ∧ (2000 : Int) ≤ 30000 :=
  ⟨rfl, rfl, rfl, rfl, by decide⟩

/-- A solid black fill whose color carries alpha `1/2` and which has no
`opacity` of its own. -/
def halfAlphaFill : Paint :=
  { type := "SOLID", color := some ⟨0, 0, 0, 1/2⟩ }

def halfAlphaFillNode : FigmaNode :=
  { fills := some [halfAlphaFill] }

/-- Claim C3 (counterexample): for a visible solid first fill with no
opacity, the deriver does NOT keep the fill color's own alpha channel
(`1/2`): it forces alpha to 1, so the emitted background is the opaque
`rgb(0, 0, 0)` rather than `rgba(0, 0, 0, 0.5)`. -/
theorem c3_no_opacity_counterexample :
    (getStyleFromNode halfAlphaFillNode).backgroundColor =
      some (StyleValue.color (CssColor.rgb 0 0 0))
    ∧ rgbaToString ⟨0, 0, 0, 1/2⟩ = CssColor.rgba 0 0 0 (1/2)
    ∧ CssColor.rgb 0 0 0 ≠ CssColor.rgba 0 0 0 (1/2) :=
  ⟨by with_unfolding_all decide, by with_unfolding_all decide,
    by with_unfolding_all decide⟩

/-- Claim C3 (amended): for a visible solid colored first fill, the emitted
background is the fill's color with its alpha channel replaced by the
fill's opacity when one is present, and replaced by 1 (fully opaque) when
the opacity is absent — the fill color's own alpha channel is never
used. -/
theorem c3_fill_alpha_semantics (node : FigmaNode) (fill : Paint)
    (rest : List Paint) (c : Rgba)
    (hfills : node.fills = some (fill :: rest))
    (hvis : fill.visible ≠ some false)
    (htype : fill.type = "SOLID")
    (hcolor : fill.color = some c) :
    (getStyleFromNode node).backgroundColor =
      some (StyleValue.color (rgbaToString (appliedFillColor fill c)))
    ∧ (∀ o, fill.opacity = some o → appliedFillColor fill c = { c with a := o })
    ∧ (fill.opacity = none → appliedFillColor fill c = { c with a := 1 }) := by
  refine ⟨?_, ?_, ?_⟩
  · rw [getStyleFromNode_eq]
    dsimp only
    unfold updFillBg
    rw [hfills]
    dsimp only
    rw [if_pos ⟨hvis, htype⟩, hcolor]
  · intro o ho
    unfold appliedFillColor
    rw [ho]
  · intro ho
    unfold appliedFillColor
    rw [ho]

/-- A solid red fill with color alpha `3/10` and no opacity. -/
def halfAlphaRedFill : Paint :=
  { type := "SOLID", color := some ⟨1, 0, 0, 3/10⟩ }

def halfAlphaRedNode : FigmaNode :=
  { fills := some [halfAlphaRedFill] }

/-- Witness for `c3_fill_alpha_semantics`: a red fill with color alpha
`3/10` and no opacity resolves to the opaque `rgb(255, 0, 0)`. -/
theorem c3_fill_alpha_semantics_witness :
    halfAlphaRedNode.fills = some [halfAlphaRedFill]
    ∧ (getStyleFromNode halfAlphaRedNode).backgroundColor =
        some (StyleValue.color (CssColor.rgb 255 0 0)) :=
  ⟨rfl,
    ((c3_fill_alpha_semantics halfAlphaRedNode halfAlphaRedFill [] ⟨1, 0, 0, 3/10⟩
        rfl (by decide) rfl rfl).1).trans (by with_unfolding_all decide)⟩

/-- An auto-laid-out node with no primary-axis alignment. -/
def noPrimaryAlignNode : FigmaNode :=
  { layoutMode := some "VERTICAL" }

/-- Claim C4 (counterexample): a node with a layout mode but no
primary-axis alignment gets NO `justifyContent` entry at all — not the
claimed `flex-start` default (the `alignMap[...] || 'flex-start'` fallback
sits inside `if (node.primaryAxisAlignItems)`, which skips absent values). -/
theorem c4_absent_align_counterexample :
    (getStyleFromNode noPrimaryAlignNode).justifyContent = none
    ∧ noPrimaryAlignNode.layoutMode = some "VERTICAL"
    ∧ noPrimaryAlignNode.primaryAxisAlignItems = none
    ∧ (none : Option StyleValue) ≠ some (StyleValue.str "flex-start") :=
  ⟨rfl, rfl, rfl, by decide⟩

/-- Claim C4 (amended): for a node with a (truthy) layout mode, a present
non-empty primary-axis alignment is translated through
{MIN → flex-start, CENTER → center, MAX → flex-end,
SPACE_BETWEEN → space-between, anything else → flex-start}; an absent (or
empty) alignment emits no `justifyContent` entry at all. -/
theorem c4_justify_content_semantics (node : FigmaNode) (m : String)
    (hm : node.layoutMode = some m) (hne : m ≠ "") :
    ((getStyleFromNode node).justifyContent =
      match node.primaryAxisAlignItems with
      | some p => if p = "" then none else some (StyleValue.str (primaryAlignMap p))
      | none => none)
    ∧ primaryAlignMap "MIN" = "flex-start"
    ∧ primaryAlignMap "CENTER" = "center"
    ∧ primaryAlignMap "MAX" = "flex-end"
    ∧ primaryAlignMap "SPACE_BETWEEN" = "space-between"
    ∧ (∀ p, p ≠ "MIN" → p ≠ "CENTER" → p ≠ "MAX" → p ≠ "SPACE_BETWEEN" →
        primaryAlignMap p = "flex-start") := by
  refine ⟨?_, rfl, rfl, rfl, rfl, ?_⟩
  · rw [getStyleFromNode_eq]
    dsimp only
    unfold layGuard
    rw [hm]
    simp only [if_neg hne]
    unfold updJustify
    rfl
  · intro p h1 h2 h3 h4
    unfold primaryAlignMap
    rw [if_neg h1, if_neg h2, if_neg h3, if_neg h4]

/-- A horizontal auto-layout node with SPACE_BETWEEN primary alignment. -/
def spaceBetweenNode : FigmaNode :=
  { layoutMode := some "HORIZONTAL", primaryAxisAlignItems := some "SPACE_BETWEEN" }

/-- Witness for `c4_justify_content_semantics`: a horizontal auto-layout
with SPACE_BETWEEN resolves to `justifyContent: space-between`. -/
theorem c4_justify_content_semantics_witness :
    spaceBetweenNode.layoutMode = some "HORIZONTAL" ∧ "HORIZONTAL" ≠ ""
    ∧ (getStyleFromNode spaceBetweenNode).justifyContent =
        some (StyleValue.str "space-between") :=
  ⟨rfl, by decide,
    ((c4_justify_content_semantics spaceBetweenNode "HORIZONTAL" rfl
        (by decide)).1).trans rfl⟩

/-- A node carrying both a flat blue background and a visible solid red
first fill. -/
def blueBgRedFillNode : FigmaNode :=
  { backgroundColor := some ⟨0, 0, 1, 1⟩,
    fills := some [{ type := "SOLID", color := some ⟨1, 0, 0, 1⟩ }] }

/-- Claim C6: when a node has both a flat `backgroundColor` and a visible
solid colored first fill, the declaration's `backgroundColor` is the
formatted fill color — the fill's value overwrites the one set from the
flat background (and differs from it whenever the two formatted colors
differ). -/
theorem c6_fill_overwrites_background (node : FigmaNode) (bg : Rgba)
    (fill : Paint) (rest : List Paint) (c : Rgba)
    (_hbg : node.backgroundColor = some bg)
    (hfills : node.fills = some (fill :: rest))
    (hvis : fill.visible ≠ some false)
    (htype : fill.type = "SOLID")
    (hcolor : fill.color = some c) :
    (getStyleFromNode node).backgroundColor =
      some (StyleValue.color (rgbaToString (appliedFillColor fill c)))
    ∧ (rgbaToString (appliedFillColor fill c) ≠ rgbaToString bg →
        (getStyleFromNode node).backgroundColor ≠
          some (StyleValue.color (rgbaToString bg))) := by
  have hmain : (getStyleFromNode node).backgroundColor =
      some (StyleValue.color (rgbaToString (appliedFillColor fill c))) := by
    rw [getStyleFromNode_eq]
    dsimp only
    unfold updFillBg
    rw [hfills]
    dsimp only
    rw [if_pos ⟨hvis, htype⟩, hcolor]
  refine ⟨hmain, ?_⟩
  intro hdiff hcontra
  rw [hmain] at hcontra
  exact hdiff (by injection hcontra with h; injection h)

/-- Witness for `c6_fill_overwrites_background`: blue flat background plus
red solid fill resolves to red, not blue. -/
theorem c6_fill_overwrites_background_witness :
    blueBgRedFillNode.backgroundColor = some ⟨0, 0, 1, 1⟩
    ∧ (getStyleFromNode blueBgRedFillNode).backgroundColor =
        some (StyleValue.color (CssColor.rgb 255 0 0))
    ∧ (getStyleFromNode blueBgRedFillNode).backgroundColor ≠
        some (StyleValue.color (CssColor.rgb 0 0 255)) := by
  have h := c6_fill_overwrites_background blueBgRedFillNode ⟨0, 0, 1, 1⟩
    { type := "SOLID", color := some ⟨1, 0, 0, 1⟩ } [] ⟨1, 0, 0, 1⟩
    rfl rfl (by decide) rfl rfl
  refine ⟨rfl, h.1.trans (by with_unfolding_all decide), ?_⟩
  have hb : rgbaToString (⟨0, 0, 1, 1⟩ : Rgba) = CssColor.rgb 0 0 255 := by
    with_unfolding_all decide
  rw [← hb]
  exact h.2 (by with_unfolding_all decide)

/-- Claim C7: the color formatter emits `rgba(R, G, B, A)` with
R, G, B = `Math.round(channel × 255)` and `A` exactly the incoming alpha
whenever `a < 1`, and drops the alpha channel (`rgb(R, G, B)`) whenever
`a ≥ 1`; channels are not clamped. -/
theorem c7_rgbaToString_cases (c : Rgba) :
    (c.a < 1 →
      rgbaToString c =
        CssColor.rgba (jsRound (c.r * 255)) (jsRound (c.g * 255))
          (jsRound (c.b * 255)) c.a)
    ∧ (1 ≤ c.a →
      rgbaToString c =
        CssColor.rgb (jsRound (c.r * 255)) (jsRound (c.g * 255))
          (jsRound (c.b * 255))) := by
  constructor
  · intro h
    unfold rgbaToString
    rw [if_pos h]
  · intro h
    unfold rgbaToString
    rw [if_neg (not_lt.mpr h)]

set_option maxRecDepth 4000 in
/-- Witness for `c7_rgbaToString_cases`: an out-of-range translucent color
formats to `rgba(510, -255, 0, 0.5)` — alpha kept verbatim, channels
unclamped — and an opaque red formats to `rgb(255, 0, 0)`. -/
theorem c7_rgbaToString_cases_witness :
    ((1 : ℚ)/2 < 1 ∧
      rgbaToString ⟨2, -1, 0, 1/2⟩ = CssColor.rgba 510 (-255) 0 (1/2))
    ∧ ((1 : ℚ) ≤ 1 ∧ rgbaToString ⟨1, 0, 0, 1⟩ = CssColor.rgb 255 0 0) :=
  ⟨⟨by with_unfolding_all decide,
      ((c7_rgbaToString_cases ⟨2, -1, 0, 1/2⟩).1
          (by with_unfolding_all decide)).trans (by with_unfolding_all decide)⟩,
    ⟨le_refl 1,
      ((c7_rgbaToString_cases ⟨1, 0, 0, 1⟩).2 (le_refl 1)).trans
        (by with_unfolding_all decide)⟩⟩

/-- The padding/gap presence rule of the layout block: a truthy (present,
non-zero) value is emitted as a `px` length, anything else is absent. -/
def emittedPx (v? : Option ℚ) : Option StyleValue :=
  match v? with
  | some v => if v = 0 then none else some (StyleValue.px v)
  | none => none

/-- Claim C8: for a node with a (truthy) layout mode, each of the four
paddings and the inter-item spacing appears in the declaration exactly when
its value is truthy: the emitted value is the `px` length, a zero padding is
treated as absent, and `paddingLeft = 5` is emitted as the `5px` length. -/
theorem c8_padding_gap_truthiness (node : FigmaNode) (m : String)
    (hm : node.layoutMode = some m) (hne : m ≠ "") :
    ((getStyleFromNode node).paddingLeft = emittedPx node.paddingLeft
      ∧ (getStyleFromNode node).paddingRight = emittedPx node.paddingRight
      ∧ (getStyleFromNode node).paddingTop = emittedPx node.paddingTop
      ∧ (getStyleFromNode node).paddingBottom = emittedPx node.paddingBottom
      ∧ (getStyleFromNode node).gap = emittedPx node.itemSpacing)
    ∧ ((getStyleFromNode node).paddingLeft.isSome = jsTruthyNum node.paddingLeft
      ∧ (getStyleFromNode node).gap.isSome = jsTruthyNum node.itemSpacing)
    ∧ (node.paddingLeft = some 0 → (getStyleFromNode node).paddingLeft = none)
    ∧ (node.paddingLeft = some 5 →
        (getStyleFromNode node).paddingLeft = some (StyleValue.px 5)) := by
  have hpx : ∀ v? : Option ℚ,
      layGuard node (updPx v?) none = emittedPx v? := by
    intro v?
    unfold layGuard
    rw [hm]
    simp only [if_neg hne]
    unfold updPx emittedPx
    rfl
  have hL : (getStyleFromNode node).paddingLeft = emittedPx node.paddingLeft := by
    rw [getStyleFromNode_eq]; exact hpx node.paddingLeft
  have hG : (getStyleFromNode node).gap = emittedPx node.itemSpacing := by
    rw [getStyleFromNode_eq]; exact hpx node.itemSpacing
  refine ⟨⟨hL, ?_, ?_, ?_, hG⟩, ⟨?_, ?_⟩, ?_, ?_⟩
  · rw [getStyleFromNode_eq]; exact hpx node.paddingRight
  · rw [getStyleFromNode_eq]; exact hpx node.paddingTop
  · rw [getStyleFromNode_eq]; exact hpx node.paddingBottom
  · rw [hL]
    unfold emittedPx jsTruthyNum
    cases hp : node.paddingLeft with
    | none => rfl
    | some v => by_cases h0 : v = 0 <;> simp [h0]
  · rw [hG]
    unfold emittedPx jsTruthyNum
    cases hp : node.itemSpacing with
    | none => rfl
    | some v => by_cases h0 : v = 0 <;> simp [h0]
  · intro h0
    rw [hL, h0]
    unfold emittedPx
    simp
  · intro h5
    rw [hL, h5]
    unfold emittedPx
    norm_num

/-- An auto-laid-out node with `paddingLeft = 5`, `paddingTop = 0` and
`itemSpacing = 8`. -/
def paddedNode : FigmaNode :=
  { layoutMode := some "VERTICAL", paddingLeft := some 5, paddingTop := some 0,
    itemSpacing := some 8 }

/-- Witness for `c8_padding_gap_truthiness`: `paddingLeft: 5` is emitted as
the `5px` length, the zero `paddingTop` is not emitted, and the spacing
appears as an `8px` gap. -/
theorem c8_padding_gap_truthiness_witness :
    paddedNode.layoutMode = some "VERTICAL" ∧ "VERTICAL" ≠ ""
    ∧ (getStyleFromNode paddedNode).paddingLeft = some (StyleValue.px 5)
    ∧ (getStyleFromNode paddedNode).paddingTop = none
    ∧ (getStyleFromNode paddedNode).gap = some (StyleValue.px 8) := by
  have h := c8_padding_gap_truthiness paddedNode "VERTICAL" rfl (by decide)
  exact ⟨rfl, by decide, h.1.1.trans (by with_unfolding_all decide),
    (h.1.2.2.1).trans (by with_unfolding_all decide),
    (h.1.2.2.2.2).trans (by with_unfolding_all decide)⟩

/-- Claim C9: when no component name is supplied, the compiler facade
derives one from the root node's display name via `sanitizeComponentName`
(split on whitespace/hyphen/underscore/slash runs, title-case each segment,
concatenate, strip non-alphanumerics, falling back to `"Component"` when
empty); in particular `"my cool-frame/2"` derives `"MyCoolFrame2"` and
`"???"` derives `"Component"`. -/
theorem c9_component_name_derivation (node : FigmaNode) :
    generateReactComponentName none node = sanitizeComponentName node.name
    ∧ sanitizeComponentName "my cool-frame/2" = "MyCoolFrame2"
    ∧ sanitizeComponentName "???" = "Component" :=
  ⟨rfl, by decide, by decide⟩

/-- Claim C10: the derived style contains a width entry exactly when it
contains a height entry — both are present exactly when the node has a
bounding box, and absent otherwise. -/
theorem c10_width_iff_height (node : FigmaNode) :
    ((getStyleFromNode node).width.isSome = true ↔
      (getStyleFromNode node).height.isSome = true)
    ∧ (getStyleFromNode node).width.isSome = node.absoluteBoundingBox.isSome
    ∧ (getStyleFromNode node).height.isSome = node.absoluteBoundingBox.isSome := by
  rw [getStyleFromNode_eq]
  dsimp only
  unfold updWidth updHeight
  cases hb : node.absoluteBoundingBox <;> simp

end FigCli
